import Mathlib

/-!
Verification of the pyrender GPU-buffer core (src/pyrender/primitive.py,
src/pyrender/advanced_features.py, src/pyrender/compute_shader.py) against its
natural-language specification.

The Python code is shallowly embedded: numpy arrays become a shape plus a flat
payload list, GPU buffers become explicit lists held in the record that models
the owning object, Python floats used as a reserve ratio become an explicit
rational given by a numerator/denominator pair of naturals (Python int()
truncation of a nonnegative product is then natural division), and methods that
can raise become functions into Except.
-/

/-- Shallow embedding of a C-contiguous numpy array: its shape tuple and its
flat (row-major) payload. -/
structure NDArray (α : Type) where
  shape : List ℕ
  data : List α
deriving DecidableEq

/-- Number of rows of a 2-D array, numpy shape[0]. -/
def NDArray.rows {α : Type} (a : NDArray α) : ℕ := a.shape.getD 0 0

/-- Number of columns of a 2-D array, numpy shape[1]. -/
def NDArray.cols {α : Type} (a : NDArray α) : ℕ := a.shape.getD 1 0

/-- Row view of a 2-D array: row i is the i-th width-sized chunk of the flat
payload. -/
def rowsOf {α : Type} (a : NDArray α) : List (List α) :=
  (List.range a.rows).map (fun i => (a.data.drop (i * a.cols)).take a.cols)

/-- Bit length of a natural number, computed with explicit fuel so that the
kernel can evaluate it on literals. -/
def bitLenAux : ℕ → ℕ → ℕ
  | 0, _ => 0
  | fuel + 1, n => if n = 0 then 0 else bitLenAux fuel (n / 2) + 1

/-- Bit length of a natural number: 0 for 0, otherwise the position of the
highest set bit plus one. -/
def bitLen (n : ℕ) : ℕ := bitLenAux n n

/-- Round-to-nearest-even of a nonnegative integer to a 24-bit IEEE-754
binary32 significand (the exponent range is never exceeded for the index
magnitudes at play). This models what np.float32 conversion does to integer
index values in the Primitive indices setter (primitive.py line 219) and in
update_topology (line 613). -/
def float32RoundNat (n : ℕ) : ℕ :=
  let k := bitLen n
  if k ≤ 24 then n
  else
    let sh := k - 24
    let q := n / 2 ^ sh
    let r := n % 2 ^ sh
    let half := 2 ^ (sh - 1)
    let q2 := if half < r ∨ (r = half ∧ q % 2 = 1) then q + 1 else q
    q2 * 2 ^ sh

/-- Values an integer index list holds after the float32 conversion performed
by the indices setter and by update_topology. Uploading then applies
astype(np.uint32), which is exact on these already-integral values in the
uint32 range. -/
def indicesToStored (input : List ℕ) : List ℕ := input.map float32RoundNat

/-- Python int(s * ratio) for a nonnegative size s and ratio num/den: floor of
the product, i.e. natural division. Models primitive.py lines 376, 438, 587
and 655. -/
def growCap (num den s : ℕ) : ℕ := s * num / den

/-- Ceiling variant of growCap; this is what the specification text claims the
code computes (the spec says ceil where the code truncates with int()). -/
def ceilCap (num den s : ℕ) : ℕ := (s * num + (den - 1)) / den

/-- Capacity evolution of one full-content write against a tracked capacity:
a write that fits leaves capacity unchanged, otherwise the buffer is
reallocated to int(count * ratio). Models the branch at primitive.py
lines 579-588 (vertex) and 649-656 (index). -/
def writeStepCap (num den cap s : ℕ) : ℕ :=
  if s ≤ cap then cap else growCap num den s

/-- Tracked capacity after an unbroken sequence of full-content writes of the
given element counts, starting from the allocation-time capacity
int(s0 * ratio) of primitive.py lines 376 and 438. -/
def capAfter (num den s0 : ℕ) (ws : List ℕ) : ℕ :=
  ws.foldl (writeStepCap num den) (growCap num den s0)

/-- Capacity evolution as the specification words it: the then-current
capacity is replaced by ceil(s * ratio) exactly when s exceeds it. -/
def specStepCap (num den cap s : ℕ) : ℕ :=
  if cap < s then ceilCap num den s else cap

/-- Capacity after a write sequence as predicted by the specification
sentence, starting from the claimed allocation capacity ceil(s0 * ratio). -/
def specCapAfter (num den s0 : ℕ) (ws : List ℕ) : ℕ :=
  ws.foldl (specStepCap num den) (ceilCap num den s0)

/-- The int(s * ratio) values of exactly those writes in the sequence that
exceeded the capacity that was current when they were issued. -/
def triggeredCaps (num den : ℕ) : ℕ → List ℕ → List ℕ
  | _, [] => []
  | cap, s :: ws =>
    if cap < s then growCap num den s :: triggeredCaps num den (growCap num den s) ws
    else triggeredCaps num den cap ws

/-- Contents of a GPU buffer after glBufferSubData writes the given payload at
offset 0: the payload followed by the untouched tail of the old contents. -/
def bufferSubData {α : Type} (old new : List α) : List α :=
  new ++ old.drop new.length

/-- Shallow embedding of pyrender.primitive.Primitive: the CPU-side attribute
arrays, the GL object handles, the tracked capacities and dirty flags, and the
device-resident buffer contents the GL calls produce. Optional per-vertex
attributes that passed validation are stored in row view; joints_0 and
weights_0 are stored exactly as assigned (their setters do not validate).
Index values are stored flat, after float32 conversion. -/
structure Primitive where
  positions : NDArray ℚ
  normals : Option (List (List ℚ)) := none
  tangents : Option (List (List ℚ)) := none
  texcoord_0 : Option (List (List ℚ)) := none
  texcoord_1 : Option (List (List ℚ)) := none
  color_0 : Option (List (List ℚ)) := none
  joints_0 : Option (NDArray ℚ) := none
  weights_0 : Option (NDArray ℚ) := none
  indices : Option (List ℕ) := none
  mode : ℕ := 4
  ratioNum : ℕ := 1
  ratioDen : ℕ := 1
  vaid : Option ℕ := none
  buffers : List ℕ := []
  element_buffer_id : Option ℕ := none
  vertex_buffer_capacity : Option ℕ := none
  index_buffer_capacity : Option ℕ := none
  needs_vertex_update : Bool := false
  needs_index_update : Bool := false
  gpu_vertex : List ℚ := []
  gpu_index : List ℕ := []
  element_buffer_bound : Bool := false
  nextId : ℕ := 1
deriving DecidableEq

/-- The normals setter, primitive.py lines 117-124: rejects any array whose
full shape differs from the positions shape, else stores the row view. -/
def Primitive.set_normals (p : Primitive) (v : Option (NDArray ℚ)) :
    Except String Primitive :=
  match v with
  | none => .ok { p with normals := none }
  | some a =>
    if a.shape ≠ p.positions.shape then .error "Incorrect normals shape"
    else .ok { p with normals := some (rowsOf a) }

/-- The tangents setter, primitive.py lines 132-139: rejects any array whose
shape is not (position rows, 4). -/
def Primitive.set_tangents (p : Primitive) (v : Option (NDArray ℚ)) :
    Except String Primitive :=
  match v with
  | none => .ok { p with tangents := none }
  | some a =>
    if a.shape ≠ [p.positions.rows, 4] then .error "Incorrect tangent shape"
    else .ok { p with tangents := some (rowsOf a) }

/-- The texcoord_0 setter, primitive.py lines 147-157: rejects wrong
dimensionality, wrong row count or fewer than two columns; arrays with more
than two columns are truncated to their first two columns before storing. -/
def Primitive.set_texcoord_0 (p : Primitive) (v : Option (NDArray ℚ)) :
    Except String Primitive :=
  match v with
  | none => .ok { p with texcoord_0 := none }
  | some a =>
    if a.shape.length ≠ 2 ∨ a.rows ≠ p.positions.rows ∨ a.cols < 2 then
      .error "Incorrect texture coordinate shape"
    else if 2 < a.cols then
      .ok { p with texcoord_0 := some ((rowsOf a).map (List.take 2)) }
    else
      .ok { p with texcoord_0 := some (rowsOf a) }

/-- The texcoord_1 setter, primitive.py lines 165-173: rejects wrong
dimensionality, wrong row count, or a column count other than exactly 2. -/
def Primitive.set_texcoord_1 (p : Primitive) (v : Option (NDArray ℚ)) :
    Except String Primitive :=
  match v with
  | none => .ok { p with texcoord_1 := none }
  | some a =>
    if a.shape.length ≠ 2 ∨ a.rows ≠ p.positions.rows ∨ a.cols ≠ 2 then
      .error "Incorrect texture coordinate shape"
    else .ok { p with texcoord_1 := some (rowsOf a) }

/-- Modelled from the spec: format_color_array lives in src/pyrender/utils.py,
which is absent from src/. Per the spec, per-vertex arrays, if present, must
have row count equal to the position count, checked eagerly on assignment. -/
def format_color_array (n : ℕ) (a : NDArray ℚ) : Except String (NDArray ℚ) :=
  if a.rows = n then .ok a else .error "Incorrect color shape"

/-- The color_0 setter, primitive.py lines 181-188, with the shape validation
of format_color_array modelled from the spec. -/
def Primitive.set_color_0 (p : Primitive) (v : Option (NDArray ℚ)) :
    Except String Primitive :=
  match v with
  | none => .ok { p with color_0 := none }
  | some a =>
    match format_color_array p.positions.rows a with
    | .error e => .error e
    | .ok a2 => .ok { p with color_0 := some (rowsOf a2) }

/-- The joints_0 setter, primitive.py lines 196-198: a plain assignment with
no validation of any kind. -/
def Primitive.set_joints_0 (p : Primitive) (v : Option (NDArray ℚ)) :
    Except String Primitive :=
  .ok { p with joints_0 := v }

/-- The weights_0 setter, primitive.py lines 206-208: a plain assignment with
no validation of any kind. -/
def Primitive.set_weights_0 (p : Primitive) (v : Option (NDArray ℚ)) :
    Except String Primitive :=
  .ok { p with weights_0 := v }

/-- The indices setter, primitive.py lines 216-221: converts the input to
float32 (rounding each integer index value) and stores it; a null input is
stored as null. -/
def Primitive.set_indices (p : Primitive) (v : Option (List ℕ)) : Primitive :=
  { p with indices := v.map indicesToStored }

/-- Interleaved vertex payload rebuilt by _update_vertex_buffer, primitive.py
lines 554-572: positions hstacked with each present optional attribute in the
fixed order normals, tangents, texcoord_0, texcoord_1, color_0, then
flattened row-major. -/
def Primitive.vertex_data (p : Primitive) : List ℚ :=
  (([p.normals, p.tangents, p.texcoord_0, p.texcoord_1, p.color_0].foldl
    (fun acc o =>
      match o with
      | none => acc
      | some m => List.zipWith (· ++ ·) acc m)
    (rowsOf p.positions))).flatten

/-- update_positions, primitive.py lines 527-544: stores the new positions and
marks the vertex pending cell, touching nothing else. -/
def Primitive.update_positions (p : Primitive) (pos : NDArray ℚ) : Primitive :=
  { p with positions := pos, needs_vertex_update := true }

/-- update_topology, primitive.py lines 600-621: converts non-null indices to
float32, stores them (or null) and marks the index pending cell, touching
nothing else. -/
def Primitive.update_topology (p : Primitive) (idx : Option (List ℕ)) :
    Primitive :=
  { p with indices := idx.map indicesToStored, needs_index_update := true }

/-- Sub-data-or-reallocate write of the interleaved vertex payload against the
tracked vertex capacity, primitive.py lines 574-596: the payload is written in
place when the capacity is tracked and suffices, otherwise the buffer is
reallocated to int(count * ratio) fresh storage and the payload written into
that. -/
def Primitive.write_vertex_payload (p : Primitive) (vd : List ℚ) : Primitive :=
  match p.vertex_buffer_capacity with
  | some cap =>
    if vd.length ≤ cap then
      { p with gpu_vertex := bufferSubData p.gpu_vertex vd }
    else
      { p with
        vertex_buffer_capacity := some (growCap p.ratioNum p.ratioDen vd.length),
        gpu_vertex :=
          bufferSubData
            (List.replicate (growCap p.ratioNum p.ratioDen vd.length) 0) vd }
  | none =>
    { p with
      vertex_buffer_capacity := some (growCap p.ratioNum p.ratioDen vd.length),
      gpu_vertex :=
        bufferSubData
          (List.replicate (growCap p.ratioNum p.ratioDen vd.length) 0) vd }

/-- _update_vertex_buffer, primitive.py lines 546-598: silently returns when
not in a context or when the buffer list is empty, else writes the rebuilt
vertex payload per write_vertex_payload. -/
def Primitive.update_vertex_buffer (p : Primitive) : Primitive :=
  if p.vaid.isNone then p
  else if p.buffers = [] then p
  else p.write_vertex_payload p.vertex_data

/-- Element buffer lookup-or-create of _update_index_buffer, primitive.py
lines 636-644: reuse the stored element buffer handle, or generate a fresh
one, append it to the owned buffer list and reset the tracked capacity. -/
def Primitive.ensure_element_buffer (p : Primitive) : Primitive :=
  match p.element_buffer_id with
  | some _ => p
  | none =>
    { p with
      element_buffer_id := some p.nextId,
      buffers := p.buffers ++ [p.nextId],
      nextId := p.nextId + 1,
      index_buffer_capacity := none }

/-- Sub-data-or-reallocate write of the flattened uint32 index payload against
the tracked index capacity, primitive.py lines 646-660. -/
def Primitive.write_index_payload (p : Primitive) (idx : List ℕ) : Primitive :=
  match p.index_buffer_capacity with
  | some cap =>
    if idx.length ≤ cap then
      { p with gpu_index := bufferSubData p.gpu_index idx }
    else
      { p with
        index_buffer_capacity := some (growCap p.ratioNum p.ratioDen idx.length),
        gpu_index :=
          bufferSubData
            (List.replicate (growCap p.ratioNum p.ratioDen idx.length) 0) idx }
  | none =>
    { p with
      index_buffer_capacity := some (growCap p.ratioNum p.ratioDen idx.length),
      gpu_index :=
        bufferSubData
          (List.replicate (growCap p.ratioNum p.ratioDen idx.length) 0) idx }

/-- _update_index_buffer, primitive.py lines 623-665: silently returns when
not in a context; with non-null indices it reuses or creates the element
buffer, binds it, and writes in place or reallocates exactly as the vertex
path does; with null indices it unbinds the element buffer, leaving the
primitive in non-indexed mode. -/
def Primitive.update_index_buffer (p : Primitive) : Primitive :=
  if p.vaid.isNone then p
  else
    match p.indices with
    | some idx =>
      ({ p.ensure_element_buffer with
         element_buffer_bound := true }).write_index_payload idx
    | none => { p with element_buffer_bound := false }

/-- The vertex half of sync_gpu, primitive.py lines 472-475: apply the vertex
pending cell when marked, then clear the mark. -/
def Primitive.sync_vertex_step (p : Primitive) : Primitive :=
  if p.needs_vertex_update then
    { p.update_vertex_buffer with needs_vertex_update := false }
  else p

/-- The index half of sync_gpu, primitive.py lines 477-480: apply the index
pending cell when marked, then clear the mark. -/
def Primitive.sync_index_step (p : Primitive) : Primitive :=
  if p.needs_index_update then
    { p.update_index_buffer with needs_index_update := false }
  else p

/-- sync_gpu, primitive.py lines 467-480: silently returns when not in a
context; otherwise drains the vertex pending cell and then the index pending
cell, clearing each flag after applying it. -/
def Primitive.sync_gpu (p : Primitive) : Primitive :=
  if p.vaid.isNone then p
  else p.sync_vertex_step.sync_index_step

/-- _bind, primitive.py lines 458-462: raises when the primitive has not been
added to a context, else binds its vertex array object. -/
def Primitive.bind (p : Primitive) : Except String Primitive :=
  if p.vaid.isNone then
    .error "Cannot bind a Mesh that has not been added to a context"
  else .ok p

/-- _remove_from_context, primitive.py lines 448-453: releases the vertex
array object and the buffer handles when bound, else does nothing. -/
def Primitive.remove_from_context (p : Primitive) : Primitive :=
  if p.vaid.isNone then p else { p with vaid := none, buffers := [] }

/-- delete, primitive.py lines 313-315: unbind (a global GL state change with
no effect on the modelled per-primitive state) then remove from context. -/
def Primitive.delete (p : Primitive) : Primitive :=
  p.remove_from_context

/-- Shallow embedding of advanced_features.PersistentBuffer: the handle, the
fixed byte size, and the persistently mapped byte region. -/
structure PersistentBuffer where
  id : Option ℕ
  size : ℕ
  array : List ℕ
deriving DecidableEq

/-- PersistentBuffer.update, advanced_features.py lines 84-90: raises when
offset + data.nbytes exceeds the fixed size, otherwise copies the payload
bytes into the mapped region at the offset. The bounds check precedes the
copy, so a rejected update touches no byte. -/
def PersistentBuffer.update (b : PersistentBuffer) (data : List ℕ)
    (offset : ℕ) : Except String PersistentBuffer :=
  if b.size < offset + data.length then
    .error "Update would exceed buffer size"
  else
    .ok { b with
          array :=
            b.array.take offset ++ data ++ b.array.drop (offset + data.length) }

/-- One entry of the storage-buffer registry of a ComputeShader: the GL
handle, the binding point, the dtype tag and the shape recorded at
registration. -/
structure SSBOEntry where
  ssbo : ℕ
  binding : ℕ
  dtype : String
  shape : List ℕ
deriving DecidableEq

/-- Dtype tag and shape of a numpy array handed to the storage-buffer
registry. -/
structure NpData where
  dtype : String
  shape : List ℕ
deriving DecidableEq

/-- Shallow embedding of compute_shader.ComputeShader: the program handle and
the insertion-ordered name-to-entry registry, plus a supply of fresh GL
handles standing in for glGenBuffers. -/
structure ComputeShader where
  program_id : Option ℕ
  ssbo_map : List (String × SSBOEntry)
  nextId : ℕ
deriving DecidableEq

/-- create_storage_buffer, compute_shader.py lines 65-91: raises exactly when
the name is already registered; otherwise appends an entry recording the new
handle, the binding point, the dtype and the shape. No check of any kind is
made against the binding points already in use. -/
def ComputeShader.create_storage_buffer (c : ComputeShader) (name : String)
    (data : NpData) (binding : ℕ) : Except String ComputeShader :=
  if (c.ssbo_map.lookup name).isSome then
    .error ("Buffer " ++ name ++ " already exists")
  else
    .ok { c with
          ssbo_map :=
            c.ssbo_map ++ [(name, ⟨c.nextId, binding, data.dtype, data.shape⟩)],
          nextId := c.nextId + 1 }

/-- A concrete bound primitive: three vertices, one triangle, unit reserve
ratio, vertex array object 1, vertex buffer 2, model-matrix buffer 3, element
buffer 4, capacities as allocated by _add_to_context. -/
def boundPrim : Primitive :=
  { positions := ⟨[3, 3], [0, 0, 0, 1, 0, 0, 0, 1, 0]⟩,
    indices := some [0, 1, 2],
    vaid := some 1,
    buffers := [2, 3, 4],
    element_buffer_id := some 4,
    vertex_buffer_capacity := some 9,
    index_buffer_capacity := some 3,
    gpu_vertex := List.replicate 9 0,
    gpu_index := [0, 1, 2],
    element_buffer_bound := true,
    nextId := 5 }

/-- The bound primitive after delete. -/
def deletedPrim : Primitive := boundPrim.delete

/-- A concrete unbound primitive with a (3, 3) position array. -/
def misPrim : Primitive :=
  { positions := ⟨[3, 3], [0, 0, 0, 0, 0, 0, 0, 0, 0]⟩ }

/-- A (2, 4) array whose row count 2 differs from the position count 3 of
misPrim. -/
def misJoints : NDArray ℚ :=
  ⟨[2, 4], [0, 0, 0, 0, 0, 0, 0, 0]⟩

/-- A (3, 4) array: row count matches the 3 positions of misPrim but it has
four columns, two more than a texture coordinate set holds. -/
def texA : NDArray ℚ :=
  ⟨[3, 4], [1, 2, 3, 4, 5, 6, 7, 8, 9, 10, 11, 12]⟩

/-- A concrete compute shader with an empty storage-buffer registry. -/
def emptyShader : ComputeShader := ⟨some 1, [], 10⟩

/-- The registry after registering name a at binding point 0. -/
def shaderWithA : ComputeShader :=
  ⟨some 1, [("a", ⟨10, 0, "float32", [4]⟩)], 11⟩

/-- The registry after additionally registering name b, reusing binding
point 0. -/
def shaderWithAB : ComputeShader :=
  ⟨some 1,
   [("a", ⟨10, 0, "float32", [4]⟩), ("b", ⟨11, 0, "float32", [4]⟩)], 12⟩

/-- Python int() truncation of s * (num/den) is at least s whenever the
reserve ratio num/den is at least one. -/
theorem growCap_ge (num den s : ℕ) (hd : 0 < den) (hr : den ≤ num) :
    s ≤ growCap num den s := by
  have h1 : s * den ≤ s * num := Nat.mul_le_mul_left s hr
  have h2 : s = s * den / den := by rw [Nat.mul_div_cancel _ hd]
  calc s = s * den / den := h2
    _ ≤ s * num / den := Nat.div_le_div_right h1

/-- Folding the write step over a write sequence computes the maximum of the
starting capacity and the reallocation values of the writes that exceeded the
then-current capacity. -/
theorem capFold_eq_max (num den : ℕ) (hd : 0 < den) (hr : den ≤ num) :
    ∀ (ws : List ℕ) (cap : ℕ),
      ws.foldl (writeStepCap num den) cap
        = (triggeredCaps num den cap ws).foldl max cap := by
  intro ws
  induction ws with
  | nil => intro cap; rfl
  | cons s ws ih =>
    intro cap
    by_cases h : cap < s
    · have hs : ¬ s ≤ cap := not_le.mpr h
      have hle : cap ≤ growCap num den s :=
        le_trans (le_of_lt h) (growCap_ge num den s hd hr)
      simp only [List.foldl_cons, writeStepCap, if_neg hs, triggeredCaps,
        if_pos h]
      rw [ih, max_eq_right hle]
    · have hs : s ≤ cap := not_lt.mp h
      simp only [List.foldl_cons, writeStepCap, if_pos hs, triggeredCaps,
        if_neg h]
      rw [ih]

/-- A sub-data write at offset 0 makes the written payload the prefix of the
buffer contents. -/
theorem bufferSubData_take {α : Type} (old new : List α) :
    (bufferSubData old new).take new.length = new := by
  simp [bufferSubData, List.take_left]

theorem write_vertex_payload_gpu_prefix (p : Primitive) (vd : List ℚ) :
    (p.write_vertex_payload vd).gpu_vertex.take vd.length = vd := by
  unfold Primitive.write_vertex_payload
  split
  · split <;> simp [bufferSubData_take]
  · simp [bufferSubData_take]

theorem write_vertex_payload_vaid (p : Primitive) (vd : List ℚ) :
    (p.write_vertex_payload vd).vaid = p.vaid := by
  unfold Primitive.write_vertex_payload
  split
  · split <;> rfl
  · rfl

theorem write_vertex_payload_buffers (p : Primitive) (vd : List ℚ) :
    (p.write_vertex_payload vd).buffers = p.buffers := by
  unfold Primitive.write_vertex_payload
  split
  · split <;> rfl
  · rfl

theorem write_vertex_payload_indices (p : Primitive) (vd : List ℚ) :
    (p.write_vertex_payload vd).indices = p.indices := by
  unfold Primitive.write_vertex_payload
  split
  · split <;> rfl
  · rfl

theorem write_vertex_payload_needs_index_update (p : Primitive) (vd : List ℚ) :
    (p.write_vertex_payload vd).needs_index_update = p.needs_index_update := by
  unfold Primitive.write_vertex_payload
  split
  · split <;> rfl
  · rfl

theorem write_vertex_payload_element_buffer_bound (p : Primitive)
    (vd : List ℚ) :
    (p.write_vertex_payload vd).element_buffer_bound
      = p.element_buffer_bound := by
  unfold Primitive.write_vertex_payload
  split
  · split <;> rfl
  · rfl

theorem write_vertex_payload_element_buffer_id (p : Primitive) (vd : List ℚ) :
    (p.write_vertex_payload vd).element_buffer_id = p.element_buffer_id := by
  unfold Primitive.write_vertex_payload
  split
  · split <;> rfl
  · rfl

theorem update_vertex_buffer_vaid (p : Primitive) :
    p.update_vertex_buffer.vaid = p.vaid := by
  unfold Primitive.update_vertex_buffer
  split
  · rfl
  · split
    · rfl
    · exact write_vertex_payload_vaid p _

theorem update_vertex_buffer_buffers (p : Primitive) :
    p.update_vertex_buffer.buffers = p.buffers := by
  unfold Primitive.update_vertex_buffer
  split
  · rfl
  · split
    · rfl
    · exact write_vertex_payload_buffers p _

theorem update_vertex_buffer_indices (p : Primitive) :
    p.update_vertex_buffer.indices = p.indices := by
  unfold Primitive.update_vertex_buffer
  split
  · rfl
  · split
    · rfl
    · exact write_vertex_payload_indices p _

theorem update_vertex_buffer_needs_index_update (p : Primitive) :
    p.update_vertex_buffer.needs_index_update = p.needs_index_update := by
  unfold Primitive.update_vertex_buffer
  split
  · rfl
  · split
    · rfl
    · exact write_vertex_payload_needs_index_update p _

theorem update_vertex_buffer_element_buffer_bound (p : Primitive) :
    p.update_vertex_buffer.element_buffer_bound = p.element_buffer_bound := by
  unfold Primitive.update_vertex_buffer
  split
  · rfl
  · split
    · rfl
    · exact write_vertex_payload_element_buffer_bound p _

theorem update_vertex_buffer_element_buffer_id (p : Primitive) :
    p.update_vertex_buffer.element_buffer_id = p.element_buffer_id := by
  unfold Primitive.update_vertex_buffer
  split
  · rfl
  · split
    · rfl
    · exact write_vertex_payload_element_buffer_id p _

theorem ensure_element_buffer_gpu_vertex (p : Primitive) :
    p.ensure_element_buffer.gpu_vertex = p.gpu_vertex := by
  unfold Primitive.ensure_element_buffer
  split <;> rfl

theorem write_index_payload_gpu_vertex (p : Primitive) (idx : List ℕ) :
    (p.write_index_payload idx).gpu_vertex = p.gpu_vertex := by
  unfold Primitive.write_index_payload
  split
  · split <;> rfl
  · rfl

theorem update_index_buffer_gpu_vertex (p : Primitive) :
    p.update_index_buffer.gpu_vertex = p.gpu_vertex := by
  unfold Primitive.update_index_buffer
  split
  · rfl
  · split
    · rw [write_index_payload_gpu_vertex]
      exact ensure_element_buffer_gpu_vertex p
    · rfl

theorem sync_vertex_step_vaid (p : Primitive) :
    p.sync_vertex_step.vaid = p.vaid := by
  unfold Primitive.sync_vertex_step
  split
  · exact update_vertex_buffer_vaid p
  · rfl

theorem sync_vertex_step_buffers (p : Primitive) :
    p.sync_vertex_step.buffers = p.buffers := by
  unfold Primitive.sync_vertex_step
  split
  · exact update_vertex_buffer_buffers p
  · rfl

theorem sync_vertex_step_indices (p : Primitive) :
    p.sync_vertex_step.indices = p.indices := by
  unfold Primitive.sync_vertex_step
  split
  · exact update_vertex_buffer_indices p
  · rfl

theorem sync_vertex_step_needs_index_update (p : Primitive) :
    p.sync_vertex_step.needs_index_update = p.needs_index_update := by
  unfold Primitive.sync_vertex_step
  split
  · exact update_vertex_buffer_needs_index_update p
  · rfl

theorem sync_vertex_step_element_buffer_id (p : Primitive) :
    p.sync_vertex_step.element_buffer_id = p.element_buffer_id := by
  unfold Primitive.sync_vertex_step
  split
  · exact update_vertex_buffer_element_buffer_id p
  · rfl

theorem sync_index_step_gpu_vertex (p : Primitive) :
    p.sync_index_step.gpu_vertex = p.gpu_vertex := by
  unfold Primitive.sync_index_step
  split
  · exact update_index_buffer_gpu_vertex p
  · rfl

theorem update_vertex_buffer_gpu_prefix (p : Primitive) (v : ℕ)
    (hb : p.vaid = some v) (hbuf : p.buffers ≠ []) :
    p.update_vertex_buffer.gpu_vertex.take p.vertex_data.length
      = p.vertex_data := by
  unfold Primitive.update_vertex_buffer
  have h2 : ¬ p.vaid.isNone = true := by rw [hb]; simp
  rw [if_neg h2, if_neg hbuf]
  exact write_vertex_payload_gpu_prefix p _

theorem delete_vaid (p : Primitive) : p.delete.vaid = none := by
  unfold Primitive.delete Primitive.remove_from_context
  split
  · next h => exact Option.isNone_iff_eq_none.mp h
  · rfl

theorem remove_from_context_of_vaid_none (p : Primitive) (h : p.vaid = none) :
    p.remove_from_context = p := by
  unfold Primitive.remove_from_context
  rw [h]
  rfl

/-- C1 counterexample: with reserve ratio 3/2, an allocation of 1 element and
a single write of 5 elements, the tracked capacity is int(5 * 1.5) = 7, while
the claim (largest ceil) predicts ceil(5 * 1.5) = 8. Python int() truncates,
so the claim as stated is false. -/
theorem growable_capacity_ceil_counterexample :
    capAfter 3 2 1 [5] = 7 ∧ specCapAfter 3 2 1 [5] = 8 ∧ (7 : ℕ) ≠ 8 := by
  decide

/-- C1 (amended: ceil replaced by Python int() truncation, i.e. floor): for a
reserve ratio num/den at least 1, the tracked capacity after an unbroken write
sequence equals the largest int(s * ratio) over the writes that exceeded the
then-current capacity, starting from the allocation-time capacity
int(s0 * ratio); a write step never decreases the capacity, a fitting write
leaves it unchanged, and both the vertex and the index sub-data-or-reallocate
paths evolve their tracked capacity by exactly this step. -/
theorem growable_capacity_tracking (num den s0 cap s : ℕ) (ws : List ℕ)
    (q : Primitive) (vd : List ℚ) (idx : List ℕ) (capv capi : ℕ)
    (hd : 0 < den) (hr : den ≤ num)
    (hqv : q.vertex_buffer_capacity = some capv)
    (hqi : q.index_buffer_capacity = some capi) :
    capAfter num den s0 ws
      = (triggeredCaps num den (growCap num den s0) ws).foldl max
          (growCap num den s0)
    ∧ cap ≤ writeStepCap num den cap s
    ∧ (s ≤ cap → writeStepCap num den cap s = cap)
    ∧ (q.write_vertex_payload vd).vertex_buffer_capacity
        = some (writeStepCap q.ratioNum q.ratioDen capv vd.length)
    ∧ (q.write_index_payload idx).index_buffer_capacity
        = some (writeStepCap q.ratioNum q.ratioDen capi idx.length) := by
  refine ⟨capFold_eq_max num den hd hr ws _, ?_, ?_, ?_, ?_⟩
  · unfold writeStepCap
    split
    · exact le_refl cap
    · next h => exact le_trans (le_of_lt (not_le.mp h)) (growCap_ge num den s hd hr)
  · intro hsc
    unfold writeStepCap
    exact if_pos hsc
  · simp only [Primitive.write_vertex_payload, hqv, writeStepCap]
    split <;> rfl
  · simp only [Primitive.write_index_payload, hqi, writeStepCap]
    split <;> rfl

/-- Witness for C1 at ratio 1/1, allocation size 2, writes of 1 and 3
elements, and the concrete bound primitive. -/
theorem growable_capacity_tracking_witness :
    (capAfter 1 1 2 [1, 3]
      = (triggeredCaps 1 1 (growCap 1 1 2) [1, 3]).foldl max (growCap 1 1 2))
    ∧ 5 ≤ writeStepCap 1 1 5 4
    ∧ (4 ≤ 5 → writeStepCap 1 1 5 4 = 5)
    ∧ (boundPrim.write_vertex_payload [0, 0]).vertex_buffer_capacity
        = some (writeStepCap boundPrim.ratioNum boundPrim.ratioDen 9
            ([0, 0] : List ℚ).length)
    ∧ (boundPrim.write_index_payload [7]).index_buffer_capacity
        = some (writeStepCap boundPrim.ratioNum boundPrim.ratioDen 3
            ([7] : List ℕ).length) :=
  growable_capacity_tracking 1 1 2 5 4 [1, 3] boundPrim [0, 0] [7] 9 3
    (by decide) (by decide) rfl rfl

/-- C2: a persistent-stream write raises its out-of-bounds error exactly when
offset plus payload byte count exceeds the fixed byte size; a rejected write
leaves the buffer untouched (the Except error carries no new state), and an
accepted write splices exactly the payload bytes in at the offset, never
changing the size or the handle. -/
theorem persistent_update_bounds (b : PersistentBuffer) (data : List ℕ)
    (off : ℕ) :
    ((∃ e, b.update data off = .error e) ↔ b.size < off + data.length)
    ∧ (∀ b2, b.update data off = .ok b2 →
        b2.size = b.size ∧ b2.id = b.id ∧
        b2.array
          = b.array.take off ++ data ++ b.array.drop (off + data.length)) := by
  unfold PersistentBuffer.update
  by_cases h : b.size < off + data.length
  · simp [h]
  · simp [h]

/-- Witness for C2 on a 4-byte buffer: a 2-byte write at offset 1 is within
bounds and splices the two bytes in place. -/
theorem persistent_update_bounds_witness :
    ((∃ e, PersistentBuffer.update ⟨some 1, 4, [0, 0, 0, 0]⟩ [9, 9] 1
        = .error e) ↔ (4 : ℕ) < 1 + 2)
    ∧ (∀ b2, PersistentBuffer.update ⟨some 1, 4, [0, 0, 0, 0]⟩ [9, 9] 1
        = .ok b2 → b2.size = 4 ∧ b2.id = some 1 ∧ b2.array = [0, 9, 9, 0]) :=
  persistent_update_bounds ⟨some 1, 4, [0, 0, 0, 0]⟩ [9, 9] 1

/-- C3 counterexample: registering name b at binding point 0 while name a
already occupies binding point 0 succeeds, and the registry ends up holding
two entries with the same binding point. The claim that a reused binding
point is rejected is false: the code only checks the name. -/
theorem storage_buffer_duplicate_binding_counterexample :
    emptyShader.create_storage_buffer "a" ⟨"float32", [4]⟩ 0 = .ok shaderWithA
    ∧ shaderWithA.create_storage_buffer "b" ⟨"float32", [4]⟩ 0
        = .ok shaderWithAB
    ∧ shaderWithAB.ssbo_map.map (fun e => e.2.binding) = [0, 0] :=
  ⟨rfl, rfl, rfl⟩

/-- C3 (amended: only name duplication is rejected): create_storage_buffer
fails exactly when the name is already registered, a failure leaves the
registry unchanged (the Except error carries no new state), and a success
appends one entry recording handle, binding point, dtype tag and shape; no
binding-point uniqueness is enforced. -/
theorem create_storage_buffer_spec (c : ComputeShader) (name : String)
    (data : NpData) (binding : ℕ) :
    ((∃ e, c.create_storage_buffer name data binding = .error e)
        ↔ (c.ssbo_map.lookup name).isSome)
    ∧ (∀ c2, c.create_storage_buffer name data binding = .ok c2 →
        c2.ssbo_map
          = c.ssbo_map
              ++ [(name, ⟨c.nextId, binding, data.dtype, data.shape⟩)]) := by
  unfold ComputeShader.create_storage_buffer
  by_cases h : (c.ssbo_map.lookup name).isSome
  · simp [h]
  · simp [h]

/-- Witness for C3: registering name a into the empty registry succeeds and
appends exactly one entry. -/
theorem create_storage_buffer_spec_witness :
    ((∃ e, emptyShader.create_storage_buffer "a" ⟨"float32", [4]⟩ 0 = .error e)
        ↔ (emptyShader.ssbo_map.lookup "a").isSome = true)
    ∧ (∀ c2, emptyShader.create_storage_buffer "a" ⟨"float32", [4]⟩ 0 = .ok c2 →
        c2.ssbo_map = [("a", ⟨10, 0, "float32", [4]⟩)]) :=
  create_storage_buffer_spec emptyShader "a" ⟨"float32", [4]⟩ 0

/-- C4: the index pipeline is not value-preserving. The setter and
update_topology convert indices to float32 before the upload casts them to
uint32, and float32 has a 24-bit significand: the representable index
16777217 = 2^24 + 1 is stored, and then uploaded to the GPU index buffer, as
16777216. This contradicts the declared (m, 3) int contract of the indices
property, so the float32 conversion is a slip in the code rather than in the
claim. -/
theorem indices_float32_roundtrip_bug :
    indicesToStored [16777217] = [16777216]
    ∧ ((boundPrim.update_topology (some [16777217])).sync_gpu).gpu_index.take 1
        = [16777216]
    ∧ (16777217 : ℕ) ≠ 16777216 := by
  refine ⟨by decide, by decide, by decide⟩

/-- C5 counterexample: assigning a joints_0 array with 2 rows to a primitive
with 3 positions succeeds and stores the array unchanged, so the claim that
every optional per-vertex attribute is eagerly shape-checked is false for
joints_0 (and likewise weights_0, whose setter is the same plain
assignment). -/
theorem joints_setter_no_validation_counterexample :
    misPrim.set_joints_0 (some misJoints)
      = .ok { misPrim with joints_0 := some misJoints }
    ∧ misJoints.rows ≠ misPrim.positions.rows :=
  ⟨rfl, by decide⟩

/-- C5 (amended: joints_0 and weights_0 excluded, their setters store without
validation): for normals, tangents, texcoord_0, texcoord_1 and color_0,
assigning an array whose row count differs from the position count raises a
shape error eagerly at assignment time, leaving the attribute unchanged (the
Except error carries no new state). The color_0 validation lives in
format_color_array, modelled from the spec because utils.py is not under
src/. -/
theorem attribute_setters_eager_shape_check (p : Primitive) (n m w : ℕ)
    (a : NDArray ℚ) (hp : p.positions.shape = [n, 3]) (ha : a.shape = [m, w])
    (hmn : m ≠ n) :
    (∃ e, p.set_normals (some a) = .error e)
    ∧ (∃ e, p.set_tangents (some a) = .error e)
    ∧ (∃ e, p.set_texcoord_0 (some a) = .error e)
    ∧ (∃ e, p.set_texcoord_1 (some a) = .error e)
    ∧ (∃ e, p.set_color_0 (some a) = .error e) := by
  have hrowsa : a.rows = m := by simp [NDArray.rows, ha]
  have hrowsp : p.positions.rows = n := by simp [NDArray.rows, hp]
  refine ⟨?_, ?_, ?_, ?_, ?_⟩
  · have hcond : a.shape ≠ p.positions.shape := by
      rw [ha, hp]
      simp [hmn]
    simp [Primitive.set_normals, hcond]
  · have hcond : a.shape ≠ [p.positions.rows, 4] := by
      rw [ha, hrowsp]
      simp [hmn]
    simp [Primitive.set_tangents, hcond]
  · have hcond : a.shape.length ≠ 2 ∨ a.rows ≠ p.positions.rows ∨ a.cols < 2 :=
      Or.inr (Or.inl (by rw [hrowsa, hrowsp]; exact hmn))
    simp [Primitive.set_texcoord_0, hcond]
  · have hcond : a.shape.length ≠ 2 ∨ a.rows ≠ p.positions.rows ∨ a.cols ≠ 2 :=
      Or.inr (Or.inl (by rw [hrowsa, hrowsp]; exact hmn))
    simp [Primitive.set_texcoord_1, hcond]
  · have hcond : ¬ a.rows = p.positions.rows := by
      rw [hrowsa, hrowsp]
      exact hmn
    simp [Primitive.set_color_0, format_color_array, hcond]

/-- Witness for C5: a (2, 4) array against 3 positions is rejected by each of
the five validating setters. -/
theorem attribute_setters_eager_shape_check_witness :
    (∃ e, misPrim.set_normals (some misJoints) = .error e)
    ∧ (∃ e, misPrim.set_tangents (some misJoints) = .error e)
    ∧ (∃ e, misPrim.set_texcoord_0 (some misJoints) = .error e)
    ∧ (∃ e, misPrim.set_texcoord_1 (some misJoints) = .error e)
    ∧ (∃ e, misPrim.set_color_0 (some misJoints) = .error e) :=
  attribute_setters_eager_shape_check misPrim 3 2 4 misJoints rfl rfl
    (by decide)

/-- C6: two update_positions calls before one sync are last-write-wins. The
second call produces literally the same state as if the first had never
happened, so the drained sync applies exactly the second staged value and the
first is never observed; on a bound primitive the GPU vertex buffer prefix
after the sync is the payload rebuilt from the second value. -/
theorem pending_update_last_write_wins (p : Primitive) (a b : NDArray ℚ)
    (v : ℕ) (hb : p.vaid = some v) (hbuf : p.buffers ≠ []) :
    (p.update_positions a).update_positions b = p.update_positions b
    ∧ ((p.update_positions a).update_positions b).positions = b
    ∧ ((p.update_positions a).update_positions b).sync_gpu
        = (p.update_positions b).sync_gpu
    ∧ ((p.update_positions a).update_positions b).sync_gpu.gpu_vertex.take
          (p.update_positions b).vertex_data.length
        = (p.update_positions b).vertex_data := by
  have h1 : (p.update_positions a).update_positions b = p.update_positions b :=
    rfl
  refine ⟨h1, rfl, by rw [h1], ?_⟩
  rw [h1]
  unfold Primitive.sync_gpu
  have hv : ¬ (p.update_positions b).vaid.isNone = true := by
    show ¬ p.vaid.isNone = true
    rw [hb]
    simp
  rw [if_neg hv, sync_index_step_gpu_vertex]
  unfold Primitive.sync_vertex_step
  rw [if_pos (show (p.update_positions b).needs_vertex_update = true from rfl)]
  exact update_vertex_buffer_gpu_prefix (p.update_positions b) v hb hbuf

/-- Witness for C6 on the concrete bound primitive with two staged position
arrays. -/
theorem pending_update_last_write_wins_witness :
    (boundPrim.update_positions ⟨[1, 3], [5, 5, 5]⟩).update_positions
        ⟨[1, 3], [7, 7, 7]⟩ = boundPrim.update_positions ⟨[1, 3], [7, 7, 7]⟩
    ∧ ((boundPrim.update_positions ⟨[1, 3], [5, 5, 5]⟩).update_positions
        ⟨[1, 3], [7, 7, 7]⟩).positions = (⟨[1, 3], [7, 7, 7]⟩ : NDArray ℚ)
    ∧ ((boundPrim.update_positions ⟨[1, 3], [5, 5, 5]⟩).update_positions
        ⟨[1, 3], [7, 7, 7]⟩).sync_gpu
        = (boundPrim.update_positions ⟨[1, 3], [7, 7, 7]⟩).sync_gpu
    ∧ ((boundPrim.update_positions ⟨[1, 3], [5, 5, 5]⟩).update_positions
          ⟨[1, 3], [7, 7, 7]⟩).sync_gpu.gpu_vertex.take
          (boundPrim.update_positions ⟨[1, 3], [7, 7, 7]⟩).vertex_data.length
        = (boundPrim.update_positions ⟨[1, 3], [7, 7, 7]⟩).vertex_data :=
  pending_update_last_write_wins boundPrim ⟨[1, 3], [5, 5, 5]⟩
    ⟨[1, 3], [7, 7, 7]⟩ 1 rfl (by decide)

/-- C7: update_positions leaves the stored index data and the index pending
flag untouched, and update_topology leaves the stored position data and the
vertex pending flag untouched: the two pending cells are independent. -/
theorem position_index_cells_independent (p : Primitive) (pos : NDArray ℚ)
    (idx : Option (List ℕ)) :
    (p.update_positions pos).indices = p.indices
    ∧ (p.update_positions pos).needs_index_update = p.needs_index_update
    ∧ (p.update_topology idx).positions = p.positions
    ∧ (p.update_topology idx).needs_vertex_update = p.needs_vertex_update :=
  ⟨rfl, rfl, rfl, rfl⟩

/-- C8: on a bound, indexed primitive, update_topology of nothing followed by
sync leaves null indices with the pending-index flag cleared and the element
buffer unbound (non-indexed drawing), while the element buffer handle and the
owned buffer list stay allocated. -/
theorem topology_none_gives_nonindexed (p : Primitive) (v : ℕ) (idx0 : List ℕ)
    (hb : p.vaid = some v) (hi : p.indices = some idx0) :
    (p.update_topology none).sync_gpu.indices = none
    ∧ (p.update_topology none).sync_gpu.needs_index_update = false
    ∧ (p.update_topology none).sync_gpu.element_buffer_bound = false
    ∧ (p.update_topology none).sync_gpu.element_buffer_id
        = p.element_buffer_id
    ∧ (p.update_topology none).sync_gpu.buffers = p.buffers := by
  have hqv : ¬ (p.update_topology none).vaid.isNone = true := by
    show ¬ p.vaid.isNone = true
    rw [hb]
    simp
  have hq1 : (p.update_topology none).sync_gpu
      = (p.update_topology none).sync_vertex_step.sync_index_step := by
    unfold Primitive.sync_gpu
    rw [if_neg hqv]
  have hsi : (p.update_topology none).sync_vertex_step.indices = none := by
    rw [sync_vertex_step_indices]
    rfl
  have hsni : (p.update_topology none).sync_vertex_step.needs_index_update
      = true := by
    rw [sync_vertex_step_needs_index_update]
    rfl
  have hsv : ¬ (p.update_topology none).sync_vertex_step.vaid.isNone
      = true := by
    rw [sync_vertex_step_vaid]
    exact hqv
  have huib : (p.update_topology none).sync_vertex_step.update_index_buffer
      = { (p.update_topology none).sync_vertex_step with
          indices := none, element_buffer_bound := false } := by
    unfold Primitive.update_index_buffer
    rw [if_neg hsv, hsi]
  have hq2 : (p.update_topology none).sync_vertex_step.sync_index_step
      = { (p.update_topology none).sync_vertex_step.update_index_buffer with
          needs_index_update := false } := by
    unfold Primitive.sync_index_step
    rw [if_pos hsni]
  rw [hq1, hq2, huib]
  refine ⟨rfl, rfl, rfl, ?_, ?_⟩
  · show (p.update_topology none).sync_vertex_step.element_buffer_id
        = p.element_buffer_id
    rw [sync_vertex_step_element_buffer_id]
    rfl
  · show (p.update_topology none).sync_vertex_step.buffers = p.buffers
    rw [sync_vertex_step_buffers]
    rfl

/-- Witness for C8 on the concrete bound, indexed primitive. -/
theorem topology_none_gives_nonindexed_witness :
    (boundPrim.update_topology none).sync_gpu.indices = none
    ∧ (boundPrim.update_topology none).sync_gpu.needs_index_update = false
    ∧ (boundPrim.update_topology none).sync_gpu.element_buffer_bound = false
    ∧ (boundPrim.update_topology none).sync_gpu.element_buffer_id = some 4
    ∧ (boundPrim.update_topology none).sync_gpu.buffers = [2, 3, 4] :=
  topology_none_gives_nonindexed boundPrim 1 [0, 1, 2] rfl rfl

/-- C9 counterexample: on a concretely deleted primitive, sync and both
buffer-update operations return normally and leave the state untouched, i.e.
they silently do nothing (their source guard is a bare return); the claim
that every subsequent operation fails with an error is therefore false. -/
theorem deleted_sync_silent_counterexample :
    deletedPrim.sync_gpu = deletedPrim
    ∧ deletedPrim.update_vertex_buffer = deletedPrim
    ∧ deletedPrim.update_index_buffer = deletedPrim :=
  ⟨rfl, rfl, rfl⟩

/-- C9 (amended: only bind fails after delete): delete is idempotent, a bind
after delete raises the not-bound error, and sync and the buffer-update
operations after delete are silent no-ops that leave the state unchanged
rather than failing. -/
theorem delete_idempotent_operations (p : Primitive) :
    p.delete.delete = p.delete
    ∧ (∃ e, p.delete.bind = .error e)
    ∧ p.delete.sync_gpu = p.delete
    ∧ p.delete.update_vertex_buffer = p.delete
    ∧ p.delete.update_index_buffer = p.delete := by
  have h := delete_vaid p
  have hnone : p.delete.vaid.isNone = true := by rw [h]; rfl
  refine ⟨?_, ?_, ?_, ?_, ?_⟩
  · exact remove_from_context_of_vaid_none p.delete h
  · refine ⟨"Cannot bind a Mesh that has not been added to a context", ?_⟩
    unfold Primitive.bind
    rw [if_pos hnone]
  · unfold Primitive.sync_gpu
    rw [if_pos hnone]
  · unfold Primitive.update_vertex_buffer
    rw [if_pos hnone]
  · unfold Primitive.update_index_buffer
    rw [if_pos hnone]

/-- C10: a texcoord_0 assignment whose row count matches the position count
but which has more than two columns succeeds and stores exactly the first two
columns of each row; arrays with fewer than two columns, wrong dimensionality
or wrong row count are rejected. -/
theorem texcoord0_truncates_extra_columns (p : Primitive) (n w : ℕ)
    (a : NDArray ℚ) (hp : p.positions.shape = [n, 3]) (ha : a.shape = [n, w]) :
    (2 < w → p.set_texcoord_0 (some a)
        = .ok { p with texcoord_0 := some ((rowsOf a).map (List.take 2)) })
    ∧ (w < 2 → ∃ e, p.set_texcoord_0 (some a) = .error e)
    ∧ (∀ b : NDArray ℚ, b.shape.length ≠ 2 →
        ∃ e, p.set_texcoord_0 (some b) = .error e)
    ∧ (∀ b : NDArray ℚ, b.shape.length = 2 → b.rows ≠ n →
        ∃ e, p.set_texcoord_0 (some b) = .error e) := by
  have hrowsa : a.rows = n := by simp [NDArray.rows, ha]
  have hcolsa : a.cols = w := by simp [NDArray.cols, ha]
  have hrowsp : p.positions.rows = n := by simp [NDArray.rows, hp]
  have hlen : a.shape.length = 2 := by rw [ha]; rfl
  refine ⟨?_, ?_, ?_, ?_⟩
  · intro hw
    have hcond :
        ¬ (a.shape.length ≠ 2 ∨ a.rows ≠ p.positions.rows ∨ a.cols < 2) := by
      push_neg
      exact ⟨hlen, by rw [hrowsa, hrowsp], by rw [hcolsa]; omega⟩
    have hgt : 2 < a.cols := by rw [hcolsa]; exact hw
    simp only [Primitive.set_texcoord_0, if_neg hcond, if_pos hgt]
  · intro hw2
    have hcond : a.shape.length ≠ 2 ∨ a.rows ≠ p.positions.rows ∨ a.cols < 2 :=
      Or.inr (Or.inr (by rw [hcolsa]; exact hw2))
    simp [Primitive.set_texcoord_0, hcond]
  · intro b hb
    have hcond : b.shape.length ≠ 2 ∨ b.rows ≠ p.positions.rows ∨ b.cols < 2 :=
      Or.inl hb
    simp [Primitive.set_texcoord_0, hcond]
  · intro b hb2 hbr
    have hcond : b.shape.length ≠ 2 ∨ b.rows ≠ p.positions.rows ∨ b.cols < 2 :=
      Or.inr (Or.inl (by rw [hrowsp]; exact hbr))
    simp [Primitive.set_texcoord_0, hcond]

/-- Witness for C10 on a concrete (3, 4) array against 3 positions. -/
theorem texcoord0_truncates_extra_columns_witness :
    (2 < 4 → misPrim.set_texcoord_0 (some texA)
        = .ok { misPrim with
                texcoord_0 := some ((rowsOf texA).map (List.take 2)) })
    ∧ (4 < 2 → ∃ e, misPrim.set_texcoord_0 (some texA) = .error e)
    ∧ (∀ b : NDArray ℚ, b.shape.length ≠ 2 →
        ∃ e, misPrim.set_texcoord_0 (some b) = .error e)
    ∧ (∀ b : NDArray ℚ, b.shape.length = 2 → b.rows ≠ 3 →
        ∃ e, misPrim.set_texcoord_0 (some b) = .error e) :=
  texcoord0_truncates_extra_columns misPrim 3 4 texA rfl rfl
